import Mathlib

/-!
# Verification of the GoAlert metrics-manager engine cycle and CLI glue

This file gives a shallow embedding of `engine/metricsmanager/update.go`
(the engine-cycle exemplar: `UpdateAll`, `UpdateAlertMetrics`,
`UpdateDailyAlertMetrics`) and of the relevant parts of the `app` package
(`RootCmd`, `getConfig`, `ErrDBRequired`, the self-test DST check, and the
retry-driver configuration), together with theorems settling the frozen
claims about them.

Database operations are modelled as fields of an environment record: each
prepared statement or lock operation is a function returning `Except String`
of its result, so that a single run of the Go function becomes a pure
computation over the environment.  Transaction semantics (`defer
tx.Rollback()` plus a final `tx.Commit()`, with `lockState.Save` writing
inside the transaction) are modelled by returning the saved state only when
the whole transaction function succeeds; on any error the persisted state is
the unchanged input state.

`time.Time` values are modelled as `Int` instants (only their linear order
and equality matter to the claims); SQL dates are likewise `Int`.
-/

namespace Metricsmanager

/-- The engine-cycle state blob (`State` in `update.go`), with the `V2`
wrapper flattened: `LastLogTime` and `LastLogID` form the alert-log cursor,
`LastMetricsDate` the daily-metrics cursor. -/
structure State where
  lastLogTime : Int
  lastLogID : Int
  lastMetricsDate : Int
deriving Repr, DecidableEq

/-- One row returned by the `db.scanLogs` query: an alert id together with
the `(timestamp, id)` position of the corresponding alert-log row, as
scanned by `rows.Scan(&alertID, &lastLogTime, &lastLogID)`. -/
structure LogRow where
  alertID : Int
  timestamp : Int
  logID : Int
deriving Repr, DecidableEq

/-- `fmt.Errorf("<prefix>: %w", err)` on the error branch of a fallible
operation. -/
def wrapErr {α : Type} (p : String) : Except String α → Except String α
  | .error e => .error (p ++ ": " ++ e)
  | .ok a => .ok a

/-- The scan loop of `UpdateAlertMetrics`: starting from the current
`(alertIDs, lastLogTime, lastLogID)` loop state (initially `([], 0, 0)`,
the Go zero values), each row appends its alert id and overwrites the two
cursor variables with the row's `(timestamp, id)`. -/
def scanRows : List LogRow → List Int × Int × Int → List Int × Int × Int
  | [], acc => acc
  | r :: rs, (ids, _, _) => scanRows rs (ids ++ [r.alertID], r.timestamp, r.logID)

/-- Environment for `UpdateAlertMetrics`: the outcome of each database
operation the function performs.  `scanLogs` takes the cursor
`(LastLogTime, LastLogID)` and the upper bound `boundNow` exactly as the
prepared statement does; a row-scan failure inside the loop is folded into
the `Except` result. -/
structure AlertEnv where
  beginTx : Except String Unit
  loadState : Except String Unit
  boundNow : Except String Int
  scanLogs : Int → Int → Int → Except String (List LogRow)
  insertMetrics : List Int → Except String Unit
  saveState : State → Except String Unit
  commit : Except String Unit

/-- The body of `UpdateAlertMetrics` run inside its transaction: on success
it returns the state that was saved and committed together with the list of
alert ids passed to `db.insertMetrics` (`none` when the batch was empty and
no insert was executed). -/
def updateAlertMetricsTx (env : AlertEnv) (st : State) :
    Except String (State × Option (List Int)) :=
  match wrapErr "begin tx" env.beginTx with
  | .error e => .error e
  | .ok _ =>
  match wrapErr "load state" env.loadState with
  | .error e => .error e
  | .ok _ =>
  match wrapErr "select bound now" env.boundNow with
  | .error e => .error e
  | .ok boundNow =>
  match wrapErr "scan logs" (env.scanLogs st.lastLogTime st.lastLogID boundNow) with
  | .error e => .error e
  | .ok rows =>
  match scanRows rows ([], 0, 0) with
  | (alertIDs, lastLogTime, lastLogID) =>
  if alertIDs.length > 0 then
    match wrapErr "insert metrics" (env.insertMetrics alertIDs) with
    | .error e => .error e
    | .ok _ =>
    let st2 : State := { st with lastLogTime := lastLogTime, lastLogID := lastLogID }
    match wrapErr "save state" (env.saveState st2) with
    | .error e => .error e
    | .ok _ =>
    match wrapErr "commit" env.commit with
    | .error e => .error e
    | .ok _ => .ok (st2, some alertIDs)
  else
    let st2 : State := { st with lastLogTime := boundNow, lastLogID := 0 }
    match wrapErr "save state" (env.saveState st2) with
    | .error e => .error e
    | .ok _ =>
    match wrapErr "commit" env.commit with
    | .error e => .error e
    | .ok _ => .ok (st2, none)

/-- Observable outcome of one `UpdateAlertMetrics` invocation: the returned
error value, the persisted state after the transaction either committed or
rolled back, and the alert ids whose derived metrics rows were durably
inserted (`none` when nothing was committed or no insert ran). -/
structure AlertResult where
  res : Except String Unit
  persisted : State
  inserted : Option (List Int)
deriving Repr

/-- `UpdateAlertMetrics`: run the transaction body; a committed run
publishes the saved state, any error rolls back (`defer tx.Rollback()`)
leaving the persisted state as it was. -/
def updateAlertMetrics (env : AlertEnv) (st : State) : AlertResult :=
  match updateAlertMetricsTx env st with
  | .ok (st2, ins) => ⟨.ok (), st2, ins⟩
  | .error e => ⟨.error e, st, none⟩

/-- Outcome of the `db.nextDailyMetricsDate` query as seen by
`QueryRowContext(...).Scan(&nextDate)`: a scanned row holding a
`sql.NullTime` (`row none` models SQL `NULL`, i.e. `Valid = false`),
`sql.ErrNoRows`, or any other scan error. -/
inductive NextDateResult where
  | row (d : Option Int)
  | noRows
  | fail (e : String)
deriving Repr, DecidableEq

/-- Environment for `UpdateDailyAlertMetrics`.  `nextDailyMetricsDate`
takes `(LastMetricsDate, LastLogTime)` exactly as the prepared statement
does. -/
structure DailyEnv where
  beginTx : Except String Unit
  loadState : Except String Unit
  nextDailyMetricsDate : Int → Int → NextDateResult
  insertDailyMetrics : Int → Except String Unit
  saveState : State → Except String Unit
  commit : Except String Unit

/-- The body of `UpdateDailyAlertMetrics` run inside its transaction:
`sql.ErrNoRows` is rewritten to a nil error, leaving `nextDate` at its zero
value (`Valid = false`); only a valid `nextDate` triggers the insert and the
state save; the commit runs in either case.  On success it returns the state
visible after commit together with the date passed to
`db.insertDailyMetrics` (`none` when no insert was executed). -/
def updateDailyAlertMetricsTx (env : DailyEnv) (st : State) :
    Except String (State × Option Int) :=
  match wrapErr "begin tx" env.beginTx with
  | .error e => .error e
  | .ok _ =>
  match wrapErr "load state" env.loadState with
  | .error e => .error e
  | .ok _ =>
  match
    (match env.nextDailyMetricsDate st.lastMetricsDate st.lastLogTime with
     | .row d => Except.ok d
     | .noRows => Except.ok none
     | .fail e => Except.error ("select next daily metrics date: " ++ e)) with
  | .error e => .error e
  | .ok nextDate =>
  match nextDate with
  | some d =>
    match wrapErr "insert daily metrics" (env.insertDailyMetrics d) with
    | .error e => .error e
    | .ok _ =>
    let st2 : State := { st with lastMetricsDate := d }
    match wrapErr "save state" (env.saveState st2) with
    | .error e => .error e
    | .ok _ =>
    match wrapErr "commit" env.commit with
    | .error e => .error e
    | .ok _ => .ok (st2, some d)
  | none =>
    match wrapErr "commit" env.commit with
    | .error e => .error e
    | .ok _ => .ok (st, none)

/-- Observable outcome of one `UpdateDailyAlertMetrics` invocation. -/
structure DailyResult where
  res : Except String Unit
  persisted : State
  insertedDate : Option Int
deriving Repr

/-- `UpdateDailyAlertMetrics`: run the transaction body; a committed run
publishes the saved state (unchanged when no row was valid), any error rolls
back leaving the persisted state as it was. -/
def updateDailyAlertMetrics (env : DailyEnv) (st : State) : DailyResult :=
  match updateDailyAlertMetricsTx env st with
  | .ok (st2, d) => ⟨.ok (), st2, d⟩
  | .error e => ⟨.error e, st, none⟩

/-- Modelled from the spec: `permission.LimitCheckAny(ctx, permission.System)`
(the `permission` package is not among the sources).  Per the spec the
context carries a permission scope and the check refuses contexts lacking
System permission; it errors exactly when the context lacks it. -/
def limitCheckSystem (hasSystem : Bool) : Except String Unit :=
  if hasSystem then .ok () else .error "permission denied"

/-- Observable outcome of one `UpdateAll` invocation: the returned error,
the persisted state, and whether each sub-update was invoked at all. -/
structure AllResult where
  res : Except String Unit
  persisted : State
  ranAlertMetrics : Bool
  ranDailyMetrics : Bool
deriving Repr

/-- `UpdateAll`: permission check, then `UpdateAlertMetrics`, then
`UpdateDailyAlertMetrics`, each early-returning its error. -/
def updateAll (hasSystem : Bool) (aenv : AlertEnv) (denv : DailyEnv)
    (st : State) : AllResult :=
  match limitCheckSystem hasSystem with
  | .error e => ⟨.error e, st, false, false⟩
  | .ok _ =>
  match updateAlertMetrics aenv st with
  | ⟨.error e, st1, _⟩ => ⟨.error e, st1, true, false⟩
  | ⟨.ok _, st1, _⟩ =>
  match updateDailyAlertMetrics denv st1 with
  | ⟨.error e, st2, _⟩ => ⟨.error e, st2, true, true⟩
  | ⟨.ok _, st2, _⟩ => ⟨.ok (), st2, true, true⟩

end Metricsmanager

namespace App

/-- Database-driver errors split by the retry driver's classification:
transient conditions are retried, logical errors are propagated. -/
inductive DBErr where
  | transient (msg : String)
  | logical (msg : String)
deriving Repr, DecidableEq

/-- Modelled from the spec: the retry driver built by
`sqldrv.NewRetryDriver` (the `sqldrv` package is not among the sources).
Per the spec it makes up to `limit` attempts, retrying transient errors
(with backoff, which does not affect the result) and propagating logical
errors immediately; the transient error is surfaced only after the attempt
budget is exhausted.  `f k` is the outcome of attempt number `k` (0-based);
the result is paired with the number of attempts actually made. -/
def retryGo {α : Type} (f : Nat → Except DBErr α) (k : Nat) :
    Nat → Except DBErr α × Nat
  | 0 => (.error (.transient "retry limit exhausted"), 0)
  | n + 1 =>
    match f k with
    | .ok a => (.ok a, 1)
    | .error (.logical m) => (.error (.logical m), 1)
    | .error (.transient m) =>
      if n = 0 then (.error (.transient m), 1)
      else
        let r := retryGo f (k + 1) n
        (r.1, r.2 + 1)

/-- Run a retry-driver operation with a given attempt limit. -/
def retryDriverRun {α : Type} (f : Nat → Except DBErr α) (limit : Nat) :
    Except DBErr α × Nat :=
  retryGo f 0 limit

/-- The attempt bound `RootCmd` passes when wrapping the raw pgx driver:
`sqldrv.NewRetryDriver(&stdlib.Driver{}, 10)`. -/
def rootCmdRetryLimit : Nat := 10

/-- `validation.FieldError`: a named configuration field plus a reason. -/
structure FieldError where
  fieldName : String
  reason : String
deriving Repr, DecidableEq

/-- `validation.NewFieldError`. -/
def NewFieldError (f r : String) : FieldError := ⟨f, r⟩

/-- `ErrDBRequired` is returned when the DB URL is unset. -/
def ErrDBRequired : FieldError := NewFieldError "db-url" "is required"

/-- Errors flowing out of the app's startup path: validation field errors
or any other error, kept abstract as a message. -/
inductive AppError where
  | validation (fe : FieldError)
  | other (msg : String)
deriving Repr, DecidableEq

/-- The viper-provided option values `getConfig` reads (the ones the
modelled fragment of the `Config` record is built from), together with the
outcome of `getTLSConfig()`. -/
structure Settings where
  dbUrl : String
  dbUrlNext : String
  listen : String
  listenTLS : String
  apiOnly : Bool
  tlsConfigResult : Except AppError Unit

/-- The fragment of `app.Config` the modelled options populate. -/
structure Config where
  dbUrl : String
  dbUrlNext : String
  listenAddr : String
  tlsListenAddr : String
  apiOnly : Bool
deriving Repr, DecidableEq

/-- `getConfig`: build the config record from viper values, then fail with
`ErrDBRequired` when `cfg.DBURL == ""`, then run `getTLSConfig`; mirrors
the `(cfg, err)` return shape of the Go function. -/
def getConfig (v : Settings) : Config × Option AppError :=
  let cfg : Config := ⟨v.dbUrl, v.dbUrlNext, v.listen, v.listenTLS, v.apiOnly⟩
  if cfg.dbUrl = "" then (cfg, some (.validation ErrDBRequired))
  else
    match v.tlsConfigResult with
    | .error e => (cfg, some e)
    | .ok _ => (cfg, none)

/-- Environment for `RootCmd.RunE`: outcomes of the steps it sequences
before and after `getConfig`.  `readConfigErr` is the `viper.ReadInConfig`
error with `cfgNotFound` its `isCfgNotFound` classification;
`serveResult` stands for everything from the retry-driver/DB wiring through
running the app once startup reaches that point. -/
structure RootEnv where
  readConfigErr : Option String
  cfgNotFound : Bool
  promServerErr : Option AppError
  settings : Settings
  tracingErr : Option String
  serveResult : Option AppError

/-- Result of `RootCmd.RunE`: the returned error and whether startup
reached the server-construction phase at all. -/
structure RootResult where
  err : Option AppError
  serverStarted : Bool
deriving Repr

/-- `RootCmd.RunE`: read config file (ignoring not-found), start the
Prometheus endpoint, load the configuration via `getConfig` — whose error
is returned as-is — then configure tracing and proceed to build and run
the server. -/
def rootCmdRun (env : RootEnv) : RootResult :=
  match env.readConfigErr, env.cfgNotFound with
  | some e, false => ⟨some (.other ("read config: " ++ e)), false⟩
  | _, _ =>
  match env.promServerErr with
  | some e => ⟨some e, false⟩
  | none =>
  match getConfig env.settings with
  | (_, some e) => ⟨some e, false⟩
  | (_, none) =>
  match env.tracingErr with
  | some e => ⟨some (.other ("config tracing: " ++ e)), false⟩
  | none => ⟨env.serveResult, true⟩

/-- `standardOffset` from the `dstCheck` closure in `testCmd`. -/
def standardOffset : Int := -21600

/-- `daylightOffset` from the `dstCheck` closure in `testCmd`. -/
def daylightOffset : Int := -18000

/-- The `dstCheck` closure of the `self-test` command.  The four probed
offsets are what `Zone()` reports in `America/Chicago` at
2020-03-08 00:00 local, that instant plus 3 h, 2020-11-01 00:00 local, and
that instant plus 3 h; the tz database is external to the program, so the
offsets are parameters.  `locErr` models `util.LoadLocation` failing. -/
def dstCheck (locErr : Option String) (o1 o2 o3 o4 : Int) : Except String Unit :=
  match locErr with
  | some e => .error ("load location: " ++ e)
  | none =>
    if o1 ≠ standardOffset then
      .error ("invalid offset: got " ++ toString o1 ++ "; want " ++ toString standardOffset)
    else if o2 ≠ daylightOffset then
      .error ("invalid offset: got " ++ toString o2 ++ "; want " ++ toString daylightOffset)
    else if o3 ≠ daylightOffset then
      .error ("invalid offset: got " ++ toString o3 ++ "; want " ++ toString daylightOffset)
    else if o4 ≠ standardOffset then
      .error ("invalid offset: got " ++ toString o4 ++ "; want " ++ toString standardOffset)
    else .ok ()

/-- The `result` helper of `testCmd` threaded through its `failed` flag: a
failing check sets the flag, a passing one leaves it. -/
def resultFailed (failed : Bool) (check : Except String Unit) : Bool :=
  match check with
  | .error _ => true
  | .ok _ => failed

/-- The tail of `testCmd.RunE`: after all checks ran, a set `failed` flag
makes the self-test command return an error. -/
def testCmdFinish (failed : Bool) : Except String Unit :=
  if failed then .error "one or more checks failed." else .ok ()

end App

namespace Metricsmanager

/-- Strict lexicographic order on `(LastLogTime, LastLogID)` cursor values:
the order in which the scan query walks alert-log rows, with the id
breaking ties between rows sharing a timestamp. -/
def cursorLt (a b : Int × Int) : Bool :=
  a.1 < b.1 || (a.1 == b.1 && a.2 < b.2)

/-- Non-strict version of `cursorLt`. -/
def cursorLe (a b : Int × Int) : Bool :=
  cursorLt a b || a == b

/-- Modelled from the spec: the SQL behind `db.scanLogs` is not among the
sources; per the spec the scan returns a bounded batch of alert-log rows
strictly after the cursor `(lastLogTime, lastLogID)` — with `lastLogID`
breaking ties — and no later than `boundNow`.  `ScanBatchValid t i b rows`
is this constraint on one returned batch. -/
def ScanBatchValid (t i b : Int) (rows : List LogRow) : Prop :=
  ∀ r ∈ rows, cursorLt (t, i) (r.timestamp, r.logID) = true ∧ r.timestamp ≤ b

/-- The alert-id component of the scan loop: the ids of all scanned rows in
order, appended to whatever the accumulator already held. -/
theorem scanRows_fst (rows : List LogRow) :
    ∀ ids t i, (scanRows rows (ids, t, i)).1 = ids ++ rows.map LogRow.alertID := by
  induction rows with
  | nil => intro ids t i; simp [scanRows]
  | cons r rs ih => intro ids t i; simp [scanRows, ih]

/-- The cursor component of the scan loop: after a non-empty batch the two
cursor variables hold the `(timestamp, id)` of the batch's last row. -/
theorem scanRows_snd :
    ∀ (rows : List LogRow) (hne : rows ≠ []) (acc : List Int × Int × Int),
      (scanRows rows acc).2 = ((rows.getLast hne).timestamp, (rows.getLast hne).logID)
  | [], hne, _ => absurd rfl hne
  | [r], _, (ids, t, i) => by simp [scanRows, List.getLast]
  | r :: r2 :: rs2, _, (ids, t, i) => by
      rw [scanRows, scanRows_snd (r2 :: rs2) (by simp)]
      simp [List.getLast]

/-- Inversion of a committed `UpdateAlertMetrics` transaction: given the
bound and the scanned batch, a successful run either saw an empty batch and
saved the `(boundNow, 0)` cursor with no insert, or saw a non-empty batch,
inserted exactly its alert ids, and saved the last row's `(timestamp, id)`
as the cursor. -/
theorem updateAlertMetricsTx_ok (env : AlertEnv) (st : State)
    (b : Int) (rows : List LogRow) (st2 : State) (ins : Option (List Int))
    (hb : env.boundNow = Except.ok b)
    (hs : env.scanLogs st.lastLogTime st.lastLogID b = Except.ok rows)
    (h : updateAlertMetricsTx env st = Except.ok (st2, ins)) :
    (rows = [] ∧ st2 = { st with lastLogTime := b, lastLogID := 0 } ∧ ins = none) ∨
    (∃ hne : rows ≠ [],
      st2 = { st with lastLogTime := (rows.getLast hne).timestamp,
                      lastLogID := (rows.getLast hne).logID } ∧
      ins = some (rows.map LogRow.alertID)) := by
  unfold updateAlertMetricsTx at h
  cases hbt : env.beginTx with
  | error e => rw [hbt] at h; simp [wrapErr] at h
  | ok u =>
  rw [hbt] at h
  cases hld : env.loadState with
  | error e => simp [hld, wrapErr] at h
  | ok v =>
  cases rows with
  | nil =>
      simp only [hld, hb, hs, wrapErr, scanRows, List.length_nil, gt_iff_lt,
        lt_self_iff_false, if_false] at h
      cases hsv : env.saveState { st with lastLogTime := b, lastLogID := 0 } with
      | error e => simp [hsv, wrapErr] at h
      | ok w =>
      simp only [hsv, wrapErr] at h
      cases hcm : env.commit with
      | error e => simp [hcm, wrapErr] at h
      | ok x =>
      simp only [hcm, wrapErr, Except.ok.injEq, Prod.mk.injEq] at h
      exact Or.inl ⟨rfl, h.1.symm, h.2.symm⟩
  | cons r rs =>
      have hne : r :: rs ≠ ([] : List LogRow) := by simp
      have hfst := scanRows_fst (r :: rs) [] 0 0
      have hsnd := scanRows_snd (r :: rs) hne ([], 0, 0)
      have hsr : scanRows (r :: rs) ([], 0, 0) =
          ((r :: rs).map LogRow.alertID,
           ((r :: rs).getLast hne).timestamp, ((r :: rs).getLast hne).logID) := by
        rcases hp : scanRows (r :: rs) ([], 0, 0) with ⟨a, t, i⟩
        rw [hp] at hfst hsnd
        simp only [List.nil_append] at hfst
        simp only [Prod.mk.injEq] at hsnd ⊢
        exact ⟨hfst, hsnd.1, hsnd.2⟩
      simp only [hld, hb, hs, wrapErr, hsr, List.map_cons, List.length_map,
        List.length_cons, gt_iff_lt, Nat.succ_pos, if_true] at h
      cases hins : env.insertMetrics (r.alertID :: rs.map LogRow.alertID) with
      | error e => simp [hins, wrapErr] at h
      | ok w =>
      simp only [hins, wrapErr] at h
      cases hsv : env.saveState { st with lastLogTime := ((r :: rs).getLast hne).timestamp,
                                          lastLogID := ((r :: rs).getLast hne).logID } with
      | error e => simp [hsv, wrapErr] at h
      | ok w2 =>
      simp only [hsv, wrapErr] at h
      cases hcm : env.commit with
      | error e => simp [hcm, wrapErr] at h
      | ok x =>
      simp only [hcm, wrapErr, Except.ok.injEq, Prod.mk.injEq] at h
      exact Or.inr ⟨hne, h.1.symm, h.2.symm⟩

/-- Inversion of a committed `UpdateDailyAlertMetrics` transaction: a
successful run either scanned a valid next date, inserted for it and saved
it as `LastMetricsDate`, or saw no valid date (`NULL` or `sql.ErrNoRows`)
and committed with the state untouched and nothing inserted. -/
theorem updateDailyAlertMetricsTx_ok (env : DailyEnv) (st st2 : State)
    (dOpt : Option Int)
    (h : updateDailyAlertMetricsTx env st = Except.ok (st2, dOpt)) :
    (∃ d, env.nextDailyMetricsDate st.lastMetricsDate st.lastLogTime =
        NextDateResult.row (some d) ∧
      dOpt = some d ∧ st2 = { st with lastMetricsDate := d }) ∨
    ((env.nextDailyMetricsDate st.lastMetricsDate st.lastLogTime =
        NextDateResult.row none ∨
      env.nextDailyMetricsDate st.lastMetricsDate st.lastLogTime =
        NextDateResult.noRows) ∧
      dOpt = none ∧ st2 = st) := by
  unfold updateDailyAlertMetricsTx at h
  cases hbt : env.beginTx with
  | error e => simp [hbt, wrapErr] at h
  | ok u =>
  cases hld : env.loadState with
  | error e => simp [hbt, hld, wrapErr] at h
  | ok v =>
  cases hq : env.nextDailyMetricsDate st.lastMetricsDate st.lastLogTime with
  | fail e => simp [hbt, hld, hq, wrapErr] at h
  | noRows =>
      simp only [hbt, hld, hq, wrapErr] at h
      cases hcm : env.commit with
      | error e => simp [hcm, wrapErr] at h
      | ok x =>
      simp only [hcm, wrapErr, Except.ok.injEq, Prod.mk.injEq] at h
      exact Or.inr ⟨Or.inr rfl, h.2.symm, h.1.symm⟩
  | row d =>
      cases d with
      | none =>
          simp only [hbt, hld, hq, wrapErr] at h
          cases hcm : env.commit with
          | error e => simp [hcm, wrapErr] at h
          | ok x =>
          simp only [hcm, wrapErr, Except.ok.injEq, Prod.mk.injEq] at h
          exact Or.inr ⟨Or.inl rfl, h.2.symm, h.1.symm⟩
      | some d =>
          simp only [hbt, hld, hq, wrapErr] at h
          cases hins : env.insertDailyMetrics d with
          | error e => simp [hins, wrapErr] at h
          | ok w =>
          simp only [hins, wrapErr] at h
          cases hsv : env.saveState { st with lastMetricsDate := d } with
          | error e => simp [hsv, wrapErr] at h
          | ok w2 =>
          simp only [hsv, wrapErr] at h
          cases hcm : env.commit with
          | error e => simp [hcm, wrapErr] at h
          | ok x =>
          simp only [hcm, wrapErr, Except.ok.injEq, Prod.mk.injEq] at h
          exact Or.inl ⟨d, rfl, h.2.symm, h.1.symm⟩

/-- `cursorLt` spelled out as a proposition. -/
theorem cursorLt_iff (a1 a2 b1 b2 : Int) :
    cursorLt (a1, a2) (b1, b2) = true ↔ (a1 < b1 ∨ (a1 = b1 ∧ a2 < b2)) := by
  simp [cursorLt]

/-- `cursorLe` spelled out as a proposition. -/
theorem cursorLe_iff (a1 a2 b1 b2 : Int) :
    cursorLe (a1, a2) (b1, b2) = true ↔
      (a1 < b1 ∨ (a1 = b1 ∧ a2 < b2) ∨ (a1 = b1 ∧ a2 = b2)) := by
  simp [cursorLe, cursorLt, Prod.ext_iff, or_assoc]

/-- A committed `UpdateAlertMetrics` transaction determines the observable
result fields. -/
theorem updateAlertMetrics_ok_parts (env : AlertEnv) (st st2 : State)
    (ins : Option (List Int))
    (htx : updateAlertMetricsTx env st = Except.ok (st2, ins)) :
    (updateAlertMetrics env st).res = Except.ok () ∧
    (updateAlertMetrics env st).persisted = st2 ∧
    (updateAlertMetrics env st).inserted = ins := by
  unfold updateAlertMetrics
  rw [htx]
  exact ⟨rfl, rfl, rfl⟩

/-- A failed `UpdateAlertMetrics` transaction rolls back. -/
theorem updateAlertMetrics_error_parts (env : AlertEnv) (st : State)
    (e : String)
    (htx : updateAlertMetricsTx env st = Except.error e) :
    (updateAlertMetrics env st).res = Except.error e ∧
    (updateAlertMetrics env st).persisted = st ∧
    (updateAlertMetrics env st).inserted = none := by
  unfold updateAlertMetrics
  rw [htx]
  exact ⟨rfl, rfl, rfl⟩

/-- A nil-returning `UpdateAlertMetrics` invocation committed its
transaction. -/
theorem updateAlertMetrics_res_ok (env : AlertEnv) (st : State)
    (hok : (updateAlertMetrics env st).res = Except.ok ()) :
    ∃ st2 ins, updateAlertMetricsTx env st = Except.ok (st2, ins) := by
  unfold updateAlertMetrics at hok
  cases htx : updateAlertMetricsTx env st with
  | error e => rw [htx] at hok; simp at hok
  | ok p => obtain ⟨st2, ins⟩ := p; exact ⟨st2, ins, rfl⟩

/-- A committed `UpdateDailyAlertMetrics` transaction determines the
observable result fields. -/
theorem updateDailyAlertMetrics_ok_parts (env : DailyEnv) (st st2 : State)
    (d : Option Int)
    (htx : updateDailyAlertMetricsTx env st = Except.ok (st2, d)) :
    (updateDailyAlertMetrics env st).res = Except.ok () ∧
    (updateDailyAlertMetrics env st).persisted = st2 ∧
    (updateDailyAlertMetrics env st).insertedDate = d := by
  unfold updateDailyAlertMetrics
  rw [htx]
  exact ⟨rfl, rfl, rfl⟩

/-- A failed `UpdateDailyAlertMetrics` transaction rolls back. -/
theorem updateDailyAlertMetrics_error_parts (env : DailyEnv) (st : State)
    (e : String)
    (htx : updateDailyAlertMetricsTx env st = Except.error e) :
    (updateDailyAlertMetrics env st).res = Except.error e ∧
    (updateDailyAlertMetrics env st).persisted = st ∧
    (updateDailyAlertMetrics env st).insertedDate = none := by
  unfold updateDailyAlertMetrics
  rw [htx]
  exact ⟨rfl, rfl, rfl⟩

/-- A nil-returning `UpdateDailyAlertMetrics` invocation committed its
transaction. -/
theorem updateDailyAlertMetrics_res_ok (env : DailyEnv) (st : State)
    (hok : (updateDailyAlertMetrics env st).res = Except.ok ()) :
    ∃ st2 d, updateDailyAlertMetricsTx env st = Except.ok (st2, d) := by
  unfold updateDailyAlertMetrics at hok
  cases htx : updateDailyAlertMetricsTx env st with
  | error e => rw [htx] at hok; simp at hok
  | ok p => obtain ⟨st2, d⟩ := p; exact ⟨st2, d, rfl⟩

/-- C1: for every successful `UpdateAlertMetrics` invocation whose bound
is `b` and whose scanned batch is `rows`: if the batch is non-empty,
derived metrics rows are inserted keyed by exactly the batch's alert ids
and the persisted cursor is set to the `(timestamp, id)` pair of the
batch's last row; if the batch is empty, the persisted cursor is set to
`(b, 0)`, snapping to the upper time bound with the tie-breaker cleared. -/
theorem claim_C1 (env : AlertEnv) (st : State) (b : Int) (rows : List LogRow)
    (hb : env.boundNow = Except.ok b)
    (hs : env.scanLogs st.lastLogTime st.lastLogID b = Except.ok rows)
    (hok : (updateAlertMetrics env st).res = Except.ok ()) :
    (∀ hne : rows ≠ [],
      (updateAlertMetrics env st).inserted = some (rows.map LogRow.alertID) ∧
      (updateAlertMetrics env st).persisted =
        { st with lastLogTime := (rows.getLast hne).timestamp,
                  lastLogID := (rows.getLast hne).logID }) ∧
    (rows = [] →
      (updateAlertMetrics env st).inserted = none ∧
      (updateAlertMetrics env st).persisted =
        { st with lastLogTime := b, lastLogID := 0 }) := by
  obtain ⟨st2, ins, htx⟩ := updateAlertMetrics_res_ok env st hok
  obtain ⟨_, hper, hins⟩ := updateAlertMetrics_ok_parts env st st2 ins htx
  rcases updateAlertMetricsTx_ok env st b rows st2 ins hb hs htx with
    ⟨hnil, h1, h2⟩ | ⟨hne, h1, h2⟩
  · subst hnil
    exact ⟨fun hne => absurd rfl hne, fun _ => ⟨hins.trans h2, hper.trans h1⟩⟩
  · exact ⟨fun hne2 => ⟨hins.trans h2, hper.trans h1⟩,
      fun hnil => absurd hnil hne⟩

/-- C2: any invocation of `UpdateAlertMetrics` or `UpdateDailyAlertMetrics`
that returns an error rolls back, leaving the persisted cursor state
(`LastLogTime`, `LastLogID`, `LastMetricsDate`) unchanged, so the cycle is
safe to re-invoke. -/
theorem claim_C2 (aenv : AlertEnv) (denv : DailyEnv) (st : State)
    (e e2 : String) :
    ((updateAlertMetrics aenv st).res = Except.error e →
      (updateAlertMetrics aenv st).persisted = st) ∧
    ((updateDailyAlertMetrics denv st).res = Except.error e2 →
      (updateDailyAlertMetrics denv st).persisted = st) := by
  constructor
  · intro h
    cases htx : updateAlertMetricsTx aenv st with
    | error e3 => exact (updateAlertMetrics_error_parts aenv st e3 htx).2.1
    | ok p =>
        have := (updateAlertMetrics_ok_parts aenv st p.1 p.2 (by rw [htx])).1
        rw [this] at h
        simp at h
  · intro h
    cases htx : updateDailyAlertMetricsTx denv st with
    | error e3 => exact (updateDailyAlertMetrics_error_parts denv st e3 htx).2.1
    | ok p =>
        have := (updateDailyAlertMetrics_ok_parts denv st p.1 p.2 (by rw [htx])).1
        rw [this] at h
        simp at h

/-- Environment exhibiting a valid non-empty batch whose single row sits at
a strictly later timestamp than the cursor. -/
def c3Env : AlertEnv where
  beginTx := .ok ()
  loadState := .ok ()
  boundNow := .ok 10
  scanLogs := fun _ _ _ => .ok [⟨1, 5, 3⟩]
  insertMetrics := fun _ => .ok ()
  saveState := fun _ => .ok ()
  commit := .ok ()

/-- C3 fails on the code: from cursor `(0, 0)`, a perfectly valid non-empty
batch (one row strictly after the cursor and within the bound) makes the
successful invocation move `LastLogTime` from `0` to `5` — so `LastLogTime`
does not stay constant across successful non-empty-batch invocations. -/
theorem claim_C3_counterexample :
    (updateAlertMetrics c3Env ⟨0, 0, 0⟩).res = Except.ok () ∧
    (updateAlertMetrics c3Env ⟨0, 0, 0⟩).inserted = some [1] ∧
    ScanBatchValid 0 0 10 [⟨1, 5, 3⟩] ∧
    ¬ (updateAlertMetrics c3Env ⟨0, 0, 0⟩).persisted.lastLogTime = (0 : Int) := by
  refine ⟨rfl, rfl, ?_, by decide⟩
  intro r hr
  simp only [List.mem_singleton] at hr
  subst hr
  exact ⟨by decide, by decide⟩

/-- C3 amended: across successful `UpdateAlertMetrics` invocations with a
valid scan, the persisted `(LastLogTime, LastLogID)` cursor strictly
increases lexicographically on every non-empty batch — in particular
`LastLogID` strictly increases whenever `LastLogTime` stays constant, but
`LastLogTime` may also advance on a non-empty batch whose last row carries
a later timestamp — and an empty batch snaps `LastLogTime` to the upper
bound `b` and clears `LastLogID`. -/
theorem claim_C3_amended (env : AlertEnv) (st : State) (b : Int)
    (rows : List LogRow)
    (hb : env.boundNow = Except.ok b)
    (hs : env.scanLogs st.lastLogTime st.lastLogID b = Except.ok rows)
    (hv : ScanBatchValid st.lastLogTime st.lastLogID b rows)
    (hok : (updateAlertMetrics env st).res = Except.ok ()) :
    (rows ≠ [] →
      cursorLt (st.lastLogTime, st.lastLogID)
        ((updateAlertMetrics env st).persisted.lastLogTime,
         (updateAlertMetrics env st).persisted.lastLogID) = true ∧
      ((updateAlertMetrics env st).persisted.lastLogTime = st.lastLogTime →
        st.lastLogID < (updateAlertMetrics env st).persisted.lastLogID)) ∧
    (rows = [] →
      (updateAlertMetrics env st).persisted.lastLogTime = b ∧
      (updateAlertMetrics env st).persisted.lastLogID = 0) := by
  obtain ⟨st2, ins, htx⟩ := updateAlertMetrics_res_ok env st hok
  obtain ⟨_, hper, hins⟩ := updateAlertMetrics_ok_parts env st st2 ins htx
  rcases updateAlertMetricsTx_ok env st b rows st2 ins hb hs htx with
    ⟨hnil, h1, h2⟩ | ⟨hne, h1, h2⟩
  · subst hnil
    refine ⟨fun hne => absurd rfl hne, fun _ => ?_⟩
    have hT : (updateAlertMetrics env st).persisted.lastLogTime = b := by
      rw [hper, h1]
    have hI : (updateAlertMetrics env st).persisted.lastLogID = 0 := by
      rw [hper, h1]
    exact ⟨hT, hI⟩
  · refine ⟨fun _ => ?_, fun hnil => absurd hnil hne⟩
    have hmem := hv _ (List.getLast_mem hne)
    have hT : (updateAlertMetrics env st).persisted.lastLogTime =
        (rows.getLast hne).timestamp := by rw [hper, h1]
    have hI : (updateAlertMetrics env st).persisted.lastLogID =
        (rows.getLast hne).logID := by rw [hper, h1]
    rw [hT, hI]
    refine ⟨hmem.1, fun heq => ?_⟩
    have hlt := (cursorLt_iff st.lastLogTime st.lastLogID
      (rows.getLast hne).timestamp (rows.getLast hne).logID).mp hmem.1
    omega

/-- Environment exhibiting a valid empty batch whose bound equals the
cursor's time component. -/
def c4Env : AlertEnv where
  beginTx := .ok ()
  loadState := .ok ()
  boundNow := .ok 5
  scanLogs := fun _ _ _ => .ok []
  insertMetrics := fun _ => .ok ()
  saveState := fun _ => .ok ()
  commit := .ok ()

/-- C4 fails on the code: from cursor `(5, 3)` with `bound_now = 5` (not
earlier than `LastLogTime`) and a vacuously valid empty batch, the
successful invocation snaps the cursor to `(5, 0)`, which is
lexicographically below `(5, 3)` — the cursor regresses in the empty-batch
case when the bound equals the cursor time and the tie-breaker is
positive. -/
theorem claim_C4_counterexample :
    (updateAlertMetrics c4Env ⟨5, 3, 0⟩).res = Except.ok () ∧
    ScanBatchValid 5 3 5 [] ∧
    (5 : Int) ≤ 5 ∧
    cursorLe (5, 3)
      ((updateAlertMetrics c4Env ⟨5, 3, 0⟩).persisted.lastLogTime,
       (updateAlertMetrics c4Env ⟨5, 3, 0⟩).persisted.lastLogID) = false := by
  refine ⟨rfl, ?_, by decide, by decide⟩
  intro r hr
  simp at hr

/-- C4 amended: for every successful invocation with a valid scan and
`bound_now` not earlier than `LastLogTime`, the persisted cursor advances
strictly (lexicographically) in the non-empty-batch case; in the
empty-batch case it becomes `(bound_now, 0)`, which never regresses
provided additionally `bound_now ≠ LastLogTime` or `LastLogID ≤ 0` —
when `bound_now = LastLogTime` and `LastLogID > 0` only the tie-breaker
resets. -/
theorem claim_C4_amended (env : AlertEnv) (st : State) (b : Int)
    (rows : List LogRow)
    (hb : env.boundNow = Except.ok b)
    (hs : env.scanLogs st.lastLogTime st.lastLogID b = Except.ok rows)
    (hv : ScanBatchValid st.lastLogTime st.lastLogID b rows)
    (hble : st.lastLogTime ≤ b)
    (hok : (updateAlertMetrics env st).res = Except.ok ()) :
    (rows ≠ [] →
      cursorLt (st.lastLogTime, st.lastLogID)
        ((updateAlertMetrics env st).persisted.lastLogTime,
         (updateAlertMetrics env st).persisted.lastLogID) = true) ∧
    (rows = [] →
      (updateAlertMetrics env st).persisted.lastLogTime = b ∧
      (updateAlertMetrics env st).persisted.lastLogID = 0 ∧
      (st.lastLogTime < b ∨ st.lastLogID ≤ 0 →
        cursorLe (st.lastLogTime, st.lastLogID) (b, 0) = true)) := by
  obtain ⟨st2, ins, htx⟩ := updateAlertMetrics_res_ok env st hok
  obtain ⟨_, hper, hins⟩ := updateAlertMetrics_ok_parts env st st2 ins htx
  rcases updateAlertMetricsTx_ok env st b rows st2 ins hb hs htx with
    ⟨hnil, h1, h2⟩ | ⟨hne, h1, h2⟩
  · subst hnil
    refine ⟨fun hne => absurd rfl hne, fun _ => ?_⟩
    have hT : (updateAlertMetrics env st).persisted.lastLogTime = b := by
      rw [hper, h1]
    have hI : (updateAlertMetrics env st).persisted.lastLogID = 0 := by
      rw [hper, h1]
    refine ⟨hT, hI, fun hcase => ?_⟩
    rw [cursorLe_iff]
    omega
  · refine ⟨fun _ => ?_, fun hnil => absurd hnil hne⟩
    have hT : (updateAlertMetrics env st).persisted.lastLogTime =
        (rows.getLast hne).timestamp := by rw [hper, h1]
    have hI : (updateAlertMetrics env st).persisted.lastLogID =
        (rows.getLast hne).logID := by rw [hper, h1]
    rw [hT, hI]
    exact (hv _ (List.getLast_mem hne)).1

/-- Modelled from the spec: the SQL behind `db.nextDailyMetricsDate` is not
among the sources; per the spec it computes the next "daily" date strictly
greater than `last_metrics_date` and strictly before the day of
`last_log_time`.  `dayOf` is the date truncation the query applies to
`last_log_time`; `NextDateQueryValid` is the constraint on every returned
date. -/
def NextDateQueryValid (env : DailyEnv) (dayOf : Int → Int) : Prop :=
  ∀ lastDate lastLog d,
    env.nextDailyMetricsDate lastDate lastLog = NextDateResult.row (some d) →
    lastDate < d ∧ d < dayOf lastLog

/-- C5: every successful `UpdateDailyAlertMetrics` invocation queries the
next daily date strictly greater than `LastMetricsDate` and strictly before
the day of `LastLogTime`; if such a date exists it inserts daily aggregates
for it and sets `LastMetricsDate` to it; if no such date exists it commits
without inserting and the persisted state is unchanged. -/
theorem claim_C5 (env : DailyEnv) (st : State) (dayOf : Int → Int)
    (hv : NextDateQueryValid env dayOf)
    (hok : (updateDailyAlertMetrics env st).res = Except.ok ()) :
    (∀ d, env.nextDailyMetricsDate st.lastMetricsDate st.lastLogTime =
        NextDateResult.row (some d) →
      st.lastMetricsDate < d ∧ d < dayOf st.lastLogTime ∧
      (updateDailyAlertMetrics env st).insertedDate = some d ∧
      (updateDailyAlertMetrics env st).persisted =
        { st with lastMetricsDate := d }) ∧
    ((env.nextDailyMetricsDate st.lastMetricsDate st.lastLogTime =
        NextDateResult.row none ∨
      env.nextDailyMetricsDate st.lastMetricsDate st.lastLogTime =
        NextDateResult.noRows) →
      (updateDailyAlertMetrics env st).insertedDate = none ∧
      (updateDailyAlertMetrics env st).persisted = st) := by
  obtain ⟨st2, dOpt, htx⟩ := updateDailyAlertMetrics_res_ok env st hok
  obtain ⟨_, hper, hdate⟩ := updateDailyAlertMetrics_ok_parts env st st2 dOpt htx
  rcases updateDailyAlertMetricsTx_ok env st st2 dOpt htx with
    ⟨d, hq, h1, h2⟩ | ⟨hq, h1, h2⟩
  · constructor
    · intro d2 hq2
      rw [hq] at hq2
      injection hq2 with hq3
      injection hq3 with hq4
      subst hq4
      have hbnd := hv _ _ _ hq
      exact ⟨hbnd.1, hbnd.2, hdate.trans h1, hper.trans h2⟩
    · intro hq2
      rcases hq2 with hq2 | hq2 <;> rw [hq] at hq2 <;> simp at hq2
  · constructor
    · intro d2 hq2
      rcases hq with hq | hq <;> rw [hq] at hq2 <;> simp at hq2
    · intro _
      exact ⟨hdate.trans h1, hper.trans h2⟩

/-- C9: lacking System permission, `UpdateAll` returns the permission error
immediately: neither sub-update is invoked and the persisted state is
unchanged; and whenever `UpdateAlertMetrics` fails,
`UpdateDailyAlertMetrics` is not invoked. -/
theorem claim_C9 (hasSystem : Bool) (aenv : AlertEnv) (denv : DailyEnv)
    (st : State) :
    (hasSystem = false →
      (updateAll hasSystem aenv denv st).res = Except.error "permission denied" ∧
      (updateAll hasSystem aenv denv st).persisted = st ∧
      (updateAll hasSystem aenv denv st).ranAlertMetrics = false ∧
      (updateAll hasSystem aenv denv st).ranDailyMetrics = false) ∧
    (∀ e, (updateAlertMetrics aenv st).res = Except.error e →
      (updateAll hasSystem aenv denv st).ranDailyMetrics = false) := by
  constructor
  · intro h
    subst h
    exact ⟨rfl, rfl, rfl, rfl⟩
  · intro e h
    cases hasSystem with
    | false => rfl
    | true =>
        unfold updateAll
        rcases hA : updateAlertMetrics aenv st with ⟨res, p, i⟩
        rw [hA] at h
        simp only at h
        subst h
        simp [limitCheckSystem]

/-- Environment for the daily update whose query yields no row and whose
state save always fails — exhibiting that the empty-result path never
touches the state blob. -/
def c10Env : DailyEnv where
  beginTx := .ok ()
  loadState := .ok ()
  nextDailyMetricsDate := fun _ _ => .noRows
  insertDailyMetrics := fun _ => .ok ()
  saveState := fun _ => .error "save state should not be reached"
  commit := .ok ()

/-- C10: `UpdateDailyAlertMetrics` treats an empty query result
(`sql.ErrNoRows` or a `NULL` next date) as success: it returns nil after
committing, does not insert, does not save the state blob, and leaves the
persisted state unchanged. -/
theorem claim_C10 (env : DailyEnv) (st : State)
    (hq : env.nextDailyMetricsDate st.lastMetricsDate st.lastLogTime =
        NextDateResult.noRows ∨
      env.nextDailyMetricsDate st.lastMetricsDate st.lastLogTime =
        NextDateResult.row none)
    (hbt : env.beginTx = Except.ok ())
    (hld : env.loadState = Except.ok ())
    (hcm : env.commit = Except.ok ()) :
    (updateDailyAlertMetrics env st).res = Except.ok () ∧
    (updateDailyAlertMetrics env st).insertedDate = none ∧
    (updateDailyAlertMetrics env st).persisted = st := by
  have htx : updateDailyAlertMetricsTx env st = Except.ok (st, none) := by
    unfold updateDailyAlertMetricsTx
    rcases hq with hq | hq <;> simp [hbt, hld, hq, hcm, wrapErr]
  unfold updateDailyAlertMetrics
  rw [htx]
  exact ⟨rfl, rfl, rfl⟩

end Metricsmanager

namespace App

/-- The retry loop never makes more attempts than its budget. -/
theorem retryGo_count_le {α : Type} (f : Nat → Except DBErr α) :
    ∀ (n k : Nat), (retryGo f k n).2 ≤ n := by
  intro n
  induction n with
  | zero => intro k; simp [retryGo]
  | succ m ih =>
      intro k
      unfold retryGo
      cases f k with
      | ok a => simp
      | error de =>
          cases de with
          | logical s => simp
          | transient s =>
              by_cases hm : m = 0
              · simp [hm]
              · simp only [hm, if_false]
                have := ih (k + 1)
                omega

/-- When every attempt fails transiently, the retry loop uses its whole
budget and surfaces a transient error. -/
theorem retryGo_all_transient {α : Type} (f : Nat → Except DBErr α)
    (hf : ∀ k, ∃ m, f k = Except.error (DBErr.transient m)) :
    ∀ (n k : Nat), 0 < n →
      ∃ m, retryGo f k n = (Except.error (DBErr.transient m), n) := by
  intro n
  induction n with
  | zero => intro k h; omega
  | succ m ih =>
      intro k _
      obtain ⟨s, hs⟩ := hf k
      unfold retryGo
      rw [hs]
      by_cases hm : m = 0
      · subst hm
        exact ⟨s, by simp⟩
      · obtain ⟨s2, hs2⟩ := ih (k + 1) (Nat.pos_of_ne_zero hm)
        refine ⟨s2, ?_⟩
        simp only [hm, if_false, hs2]

/-- C6: the retry driver wrapping the raw Postgres driver in `RootCmd` is
configured with a bound of 10 attempts: no operation is ever attempted more
than 10 times, and an operation whose every attempt fails transiently is
attempted exactly 10 times before its error is propagated. -/
theorem claim_C6 {α : Type} (f : Nat → Except DBErr α) :
    (retryDriverRun f rootCmdRetryLimit).2 ≤ 10 ∧
    ((∀ k, ∃ m, f k = Except.error (DBErr.transient m)) →
      ∃ m, retryDriverRun f rootCmdRetryLimit =
        (Except.error (DBErr.transient m), 10)) := by
  constructor
  · exact retryGo_count_le f 10 0
  · intro hf
    exact retryGo_all_transient f hf 10 0 (by omega)

/-- C7: whenever `db-url` is empty, `getConfig` fails with the `Validation`
field error `ErrDBRequired` — literally `NewFieldError "db-url"
"is required"` — and `RootCmd` returns that error verbatim without the
server ever being started. -/
theorem claim_C7 (env : RootEnv)
    (hdb : env.settings.dbUrl = "")
    (hread : env.readConfigErr = none ∨ env.cfgNotFound = true)
    (hprom : env.promServerErr = none) :
    (getConfig env.settings).2 = some (AppError.validation ErrDBRequired) ∧
    ErrDBRequired = NewFieldError "db-url" "is required" ∧
    rootCmdRun env = ⟨some (AppError.validation ErrDBRequired), false⟩ := by
  have hgc : (getConfig env.settings).2 =
      some (AppError.validation ErrDBRequired) := by
    unfold getConfig
    simp [hdb]
  refine ⟨hgc, rfl, ?_⟩
  unfold rootCmdRun
  rcases hg : getConfig env.settings with ⟨cfg, errOpt⟩
  rw [hg] at hgc
  simp only at hgc
  subst hgc
  rcases hread with h1 | h1
  · rw [h1, hprom]
  · cases hrc : env.readConfigErr with
    | none => rw [hprom]
    | some e => rw [h1, hprom]

/-- C8: the self-test DST check passes exactly when America/Chicago
reports offset −21600 at 2020-03-08 00:00, −18000 three hours later,
−18000 at 2020-11-01 00:00, and −21600 three hours after that; with any
other offsets the check errors and the self-test command fails. -/
theorem claim_C8 (o1 o2 o3 o4 : Int) :
    (dstCheck none o1 o2 o3 o4 = Except.ok () ↔
      (o1 = -21600 ∧ o2 = -18000 ∧ o3 = -18000 ∧ o4 = -21600)) ∧
    (∀ failed : Bool, dstCheck none o1 o2 o3 o4 ≠ Except.ok () →
      testCmdFinish (resultFailed failed (dstCheck none o1 o2 o3 o4)) =
        Except.error "one or more checks failed.") := by
  constructor
  · simp only [dstCheck, standardOffset, daylightOffset]
    split_ifs with h1 h2 h3 h4 <;> simp_all
  · intro failed h
    cases hd : dstCheck none o1 o2 o3 o4 with
    | ok u => cases u; exact absurd hd h
    | error s => simp [resultFailed, hd, testCmdFinish]

end App

namespace Metricsmanager

/-- A boolean scan over the batch implies `ScanBatchValid`; lets concrete
batches be checked by evaluation. -/
theorem scanBatchValid_of_all (t i b : Int) (rows : List LogRow)
    (h : rows.all
      (fun r => cursorLt (t, i) (r.timestamp, r.logID) &&
        decide (r.timestamp ≤ b)) = true) :
    ScanBatchValid t i b rows := by
  intro r hr
  have hh := List.all_eq_true.mp h r hr
  simp only [Bool.and_eq_true, decide_eq_true_eq] at hh
  exact hh

/-- Concrete environment exercising the non-empty-batch path: two rows,
the later one at `(7, 9)`. -/
def w1Env : AlertEnv where
  beginTx := .ok ()
  loadState := .ok ()
  boundNow := .ok 10
  scanLogs := fun _ _ _ => .ok [⟨1, 5, 3⟩, ⟨2, 7, 9⟩]
  insertMetrics := fun _ => .ok ()
  saveState := fun _ => .ok ()
  commit := .ok ()

/-- Witness for C1 at a concrete two-row batch. -/
theorem claim_C1_witness :
    (updateAlertMetrics w1Env ⟨0, 0, 0⟩).inserted = some [1, 2] ∧
    (updateAlertMetrics w1Env ⟨0, 0, 0⟩).persisted = ⟨7, 9, 0⟩ := by
  have h := (claim_C1 w1Env ⟨0, 0, 0⟩ 10 [⟨1, 5, 3⟩, ⟨2, 7, 9⟩]
    rfl rfl rfl).1 (by decide)
  exact ⟨h.1, h.2⟩

/-- Alert environment whose commit fails. -/
def w2AlertEnv : AlertEnv where
  beginTx := .ok ()
  loadState := .ok ()
  boundNow := .ok 10
  scanLogs := fun _ _ _ => .ok []
  insertMetrics := fun _ => .ok ()
  saveState := fun _ => .ok ()
  commit := .error "device failure"

/-- Daily environment whose commit fails. -/
def w2DailyEnv : DailyEnv where
  beginTx := .ok ()
  loadState := .ok ()
  nextDailyMetricsDate := fun _ _ => .row (some 4)
  insertDailyMetrics := fun _ => .ok ()
  saveState := fun _ => .ok ()
  commit := .error "device failure"

/-- Witness for C2 at concrete failing environments. -/
theorem claim_C2_witness :
    (updateAlertMetrics w2AlertEnv ⟨1, 2, 3⟩).persisted = ⟨1, 2, 3⟩ ∧
    (updateDailyAlertMetrics w2DailyEnv ⟨1, 2, 3⟩).persisted = ⟨1, 2, 3⟩ := by
  have h := claim_C2 w2AlertEnv w2DailyEnv ⟨1, 2, 3⟩
    "commit: device failure" "commit: device failure"
  exact ⟨h.1 rfl, h.2 rfl⟩

/-- Witness for the amended C3 at a concrete two-row batch. -/
theorem claim_C3_amended_witness :
    cursorLt (0, 0)
      ((updateAlertMetrics w1Env ⟨0, 0, 0⟩).persisted.lastLogTime,
       (updateAlertMetrics w1Env ⟨0, 0, 0⟩).persisted.lastLogID) = true := by
  have h := (claim_C3_amended w1Env ⟨0, 0, 0⟩ 10 [⟨1, 5, 3⟩, ⟨2, 7, 9⟩]
    rfl rfl (scanBatchValid_of_all 0 0 10 _ (by decide)) rfl).1 (by decide)
  exact h.1

/-- Alert environment with an empty batch and bound strictly above the
cursor time. -/
def w4Env : AlertEnv where
  beginTx := .ok ()
  loadState := .ok ()
  boundNow := .ok 7
  scanLogs := fun _ _ _ => .ok []
  insertMetrics := fun _ => .ok ()
  saveState := fun _ => .ok ()
  commit := .ok ()

/-- Witness for the amended C4 at a concrete empty batch. -/
theorem claim_C4_amended_witness :
    (updateAlertMetrics w4Env ⟨5, 3, 0⟩).persisted.lastLogTime = 7 ∧
    (updateAlertMetrics w4Env ⟨5, 3, 0⟩).persisted.lastLogID = 0 ∧
    cursorLe (5, 3) (7, 0) = true := by
  have h := (claim_C4_amended w4Env ⟨5, 3, 0⟩ 7 []
    rfl rfl (scanBatchValid_of_all 5 3 7 [] (by decide)) (by decide) rfl).2 rfl
  exact ⟨h.1, h.2.1, h.2.2 (Or.inl (by decide))⟩

/-- Daily environment whose next-date query respects the spec's bounds for
`dayOf t = t - 1`: it answers `lastDate + 1` whenever that is strictly
below `lastLog - 1`, and reports no row otherwise. -/
def w5Env : DailyEnv where
  beginTx := .ok ()
  loadState := .ok ()
  nextDailyMetricsDate := fun a b =>
    if a + 1 < b - 1 then .row (some (a + 1)) else .noRows
  insertDailyMetrics := fun _ => .ok ()
  saveState := fun _ => .ok ()
  commit := .ok ()

/-- `w5Env`'s query satisfies the spec-modelled constraint. -/
theorem w5Env_valid : NextDateQueryValid w5Env (fun t => t - 1) := by
  intro a b d h
  simp only [w5Env] at h
  split at h
  · rename_i hlt
    injection h with h1
    injection h1 with h2
    subst h2
    refine ⟨by omega, ?_⟩
    show a + 1 < b - 1
    omega
  · simp at h

/-- Witness for C5 at a concrete environment. -/
theorem claim_C5_witness :
    (updateDailyAlertMetrics w5Env ⟨100, 0, 0⟩).insertedDate = some 1 ∧
    (updateDailyAlertMetrics w5Env ⟨100, 0, 0⟩).persisted = ⟨100, 0, 1⟩ ∧
    (0 : Int) < 1 ∧ (1 : Int) < 99 := by
  have h := (claim_C5 w5Env ⟨100, 0, 0⟩ (fun t => t - 1) w5Env_valid rfl).1 1 rfl
  exact ⟨h.2.2.1, h.2.2.2, h.1, h.2.1⟩

/-- Alert environment whose begin-tx fails, for C9's second part. -/
def w9AlertEnv : AlertEnv where
  beginTx := .error "connection reset"
  loadState := .ok ()
  boundNow := .ok 10
  scanLogs := fun _ _ _ => .ok []
  insertMetrics := fun _ => .ok ()
  saveState := fun _ => .ok ()
  commit := .ok ()

/-- Trivial daily environment for C9. -/
def w9DailyEnv : DailyEnv where
  beginTx := .ok ()
  loadState := .ok ()
  nextDailyMetricsDate := fun _ _ => .noRows
  insertDailyMetrics := fun _ => .ok ()
  saveState := fun _ => .ok ()
  commit := .ok ()

/-- Witness for C9 at a concrete permission-denied invocation. -/
theorem claim_C9_witness :
    (updateAll false w9AlertEnv w9DailyEnv ⟨1, 2, 3⟩).res =
      Except.error "permission denied" ∧
    (updateAll false w9AlertEnv w9DailyEnv ⟨1, 2, 3⟩).persisted = ⟨1, 2, 3⟩ ∧
    (updateAll false w9AlertEnv w9DailyEnv ⟨1, 2, 3⟩).ranAlertMetrics = false ∧
    (updateAll false w9AlertEnv w9DailyEnv ⟨1, 2, 3⟩).ranDailyMetrics = false := by
  have h := claim_C9 false w9AlertEnv w9DailyEnv ⟨1, 2, 3⟩
  have h2 := h.2 "begin tx: connection reset" rfl
  have h1 := h.1 rfl
  exact ⟨h1.1, h1.2.1, h1.2.2.1, h2⟩

/-- Witness for C10 at the concrete no-rows environment. -/
theorem claim_C10_witness :
    (updateDailyAlertMetrics c10Env ⟨0, 0, 0⟩).res = Except.ok () ∧
    (updateDailyAlertMetrics c10Env ⟨0, 0, 0⟩).insertedDate = none ∧
    (updateDailyAlertMetrics c10Env ⟨0, 0, 0⟩).persisted = ⟨0, 0, 0⟩ :=
  claim_C10 c10Env ⟨0, 0, 0⟩ (Or.inl rfl) rfl rfl rfl

end Metricsmanager

namespace App

/-- Witness for C6: an operation whose every attempt is refused uses the
whole 10-attempt budget. -/
theorem claim_C6_witness :
    (retryDriverRun (fun _ => Except.error (DBErr.transient "connection refused"))
      (α := Unit) rootCmdRetryLimit).2 ≤ 10 ∧
    ∃ m, retryDriverRun (fun _ => Except.error (DBErr.transient "connection refused"))
      (α := Unit) rootCmdRetryLimit = (Except.error (DBErr.transient m), 10) := by
  have h := claim_C6 (α := Unit)
    (fun _ => Except.error (DBErr.transient "connection refused"))
  exact ⟨h.1, h.2 (fun k => ⟨"connection refused", rfl⟩)⟩

/-- Concrete startup environment with an empty `db-url`. -/
def w7Env : RootEnv where
  readConfigErr := none
  cfgNotFound := false
  promServerErr := none
  settings := { dbUrl := "", dbUrlNext := "", listen := "127.0.0.1:8081",
                listenTLS := "", apiOnly := false, tlsConfigResult := .ok () }
  tracingErr := none
  serveResult := none

/-- Witness for C7 at the concrete empty-`db-url` environment. -/
theorem claim_C7_witness :
    (getConfig w7Env.settings).2 = some (AppError.validation ErrDBRequired) ∧
    rootCmdRun w7Env = ⟨some (AppError.validation ErrDBRequired), false⟩ := by
  have h := claim_C7 w7Env rfl (Or.inl rfl) rfl
  exact ⟨h.1, h.2.2⟩

/-- Witness for C8 at all-zero offsets: the check fails and the self-test
command errors. -/
theorem claim_C8_witness :
    testCmdFinish (resultFailed false (dstCheck none 0 0 0 0)) =
      Except.error "one or more checks failed." :=
  (claim_C8 0 0 0 0).2 false
    (fun h => by simp [dstCheck, standardOffset] at h)

end App
